import Mathlib

/-!
Verification development for the omnibioai-control-center health-aggregation
engine.  The definitions below are a shallow embedding of the Python sources:

* `check_http`    embeds `control_center/checks/http.py`  (`check_http`);
* `check_tcp`     embeds `control_center/checks/tcp.py`   (`check_tcp`);
* `disk_check_one` and `run_disk_checks` embed
                  `control_center/checks/disk.py` (`run_disk_checks`);
* `dispatch_one` and `run_all_checks` embed
                  `control_center/core/runner.py` (`run_all_checks`);
* `summaryOverall` embeds the status-reduction loop of
                  `control_center/api/routes_summary.py` (`summary`);
* `runChecksGather` models the total-timeout composition of
                  `app/main.py` (`_run_checks`).

Network, filesystem and clock effects are abstracted into outcome oracles
(`HttpOutcome`, `TcpOutcome`, `DiskUsageOutcome`, and completion times for the
batch model); everything the probe functions themselves compute is embedded
faithfully.
-/

namespace ControlCenter

/-- Health status of one check: the string values "UP" / "WARN" / "DOWN". -/
inductive Status where
  | up
  | warn
  | down
deriving DecidableEq, Repr

/-- The normalized result dictionary every probe returns. -/
structure CheckResult where
  name : String
  type : String
  target : String
  status : Status
  latency_ms : Option Nat
  message : String
deriving DecidableEq, Repr

/-- Python rendering of an optional string inside an f-string: `None` prints
as "None". -/
def pyOptStr : Option String → String
  | some s => s
  | none => "None"

/-- Python rendering of an optional int inside an f-string. -/
def pyOptIntStr : Option Int → String
  | some n => toString n
  | none => "None"

/-- Python `repr` of a string value (as interpolated by `!r`), for strings
without quotes or escapes, which is the only use in the source. -/
def pyRepr (s : String) : String :=
  "\x27" ++ s ++ "\x27"

/-- ASCII lower-casing of one character, as Python `str.lower` acts on the
ASCII configuration strings used by the runner. -/
def pyLowerChar (c : Char) : Char :=
  if 65 ≤ c.toNat ∧ c.toNat ≤ 90 then Char.ofNat (c.toNat + 32) else c

/-- Python `str.lower` on the check-type strings (ASCII). -/
def pyLower (s : String) : String :=
  String.mk (s.data.map pyLowerChar)

/-- One entry of the `services:` mapping in the YAML configuration, with the
fields the runner and probes read (`cfg.get(...)`); an absent key is `none`.
`timeout_s` is only handed to the network layer, which is abstracted here. -/
structure ServiceCfg where
  type : Option String
  url : Option String
  host : Option String
  port : Option Int
  timeout_s : Option ℚ
deriving DecidableEq

/-- Outcome of the one `urllib.request.urlopen` call a HTTP probe performs:
either a response whose status code was read, or a raised exception, with the
measured wall-clock latency in milliseconds. -/
inductive HttpOutcome where
  | response (code : Int) (latencyMs : Nat)
  | failure (errClass errText : String) (latencyMs : Nat)
deriving DecidableEq, Repr

/-- Outcome of the one `socket.connect` call a TCP probe performs. -/
inductive TcpOutcome where
  | connected (latencyMs : Nat)
  | failed (errClass errText : String) (latencyMs : Nat)
deriving DecidableEq, Repr

/-- Embeds `check_http` (checks/http.py).  A falsy `url` (absent or empty)
short-circuits to a DOWN result before any network interaction; otherwise the
result is determined by the response code or the raised exception. -/
def check_http (name : String) (cfg : ServiceCfg) (io : HttpOutcome) : CheckResult :=
  match cfg.url with
  | none =>
      { name := name, type := "http", target := "-", status := Status.down,
        latency_ms := none, message := "Missing \x27url\x27 in config" }
  | some url =>
      if url = "" then
        { name := name, type := "http", target := "-", status := Status.down,
          latency_ms := none, message := "Missing \x27url\x27 in config" }
      else
        match io with
        | HttpOutcome.response code latencyMs =>
            if 200 ≤ code ∧ code < 400 then
              { name := name, type := "http", target := url, status := Status.up,
                latency_ms := some latencyMs, message := "HTTP " ++ toString code }
            else
              { name := name, type := "http", target := url, status := Status.warn,
                latency_ms := some latencyMs, message := "HTTP " ++ toString code }
        | HttpOutcome.failure errClass errText latencyMs =>
            { name := name, type := "http", target := url, status := Status.down,
              latency_ms := some latencyMs, message := errClass ++ ": " ++ errText }

/-- Embeds `check_tcp` (checks/tcp.py).  A falsy `host` yields DOWN with null
latency before any socket is used; otherwise the connect outcome decides. -/
def check_tcp (name : String) (host : Option String) (port : Int) (kind : String)
    (io : TcpOutcome) : CheckResult :=
  let target := pyOptStr host ++ ":" ++ toString port
  match host with
  | none =>
      { name := name, type := kind, target := target, status := Status.down,
        latency_ms := none, message := "Missing host" }
  | some h =>
      if h = "" then
        { name := name, type := kind, target := target, status := Status.down,
          latency_ms := none, message := "Missing host" }
      else
        match io with
        | TcpOutcome.connected latencyMs =>
            { name := name, type := kind, target := target, status := Status.up,
              latency_ms := some latencyMs, message := "TCP connect ok" }
        | TcpOutcome.failed errClass errText latencyMs =>
            { name := name, type := kind, target := target, status := Status.down,
              latency_ms := some latencyMs, message := errClass ++ ": " ++ errText }

/-- The local `ctype` of the runner loop: the `type` field, empty when absent,
lower-cased. -/
def ctypeOf (cfg : ServiceCfg) : String :=
  pyLower (cfg.type.getD "")

/-- The loop body of `run_all_checks` (core/runner.py) for one `(name, cfg)`
pair: lower-case the `type` field, dispatch to the matching probe, or build the
unknown-kind WARN result. -/
def dispatch_one (name : String) (cfg : ServiceCfg) (hio : HttpOutcome)
    (tio : TcpOutcome) : CheckResult :=
  if ctypeOf cfg = "http" then check_http name cfg hio
  else if ctypeOf cfg = "mysql" then
    check_tcp name cfg.host (cfg.port.getD 3306) "mysql" tio
  else if ctypeOf cfg = "redis" then
    check_tcp name cfg.host (cfg.port.getD 6379) "redis" tio
  else
    { name := name
      type := if ctypeOf cfg = "" then "unknown" else ctypeOf cfg
      target :=
        match cfg.url with
        | some u => if u = "" then pyOptStr cfg.host ++ ":" ++ pyOptIntStr cfg.port else u
        | none => pyOptStr cfg.host ++ ":" ++ pyOptIntStr cfg.port
      status := Status.warn
      latency_ms := none
      message := "Unknown check type: " ++ pyRepr (ctypeOf cfg) }

/-- Embeds `run_all_checks` (core/runner.py): one result per configured
service, in the mapping's iteration order; the I/O outcome of each probe is
supplied by the oracles, keyed by service name. -/
def run_all_checks (services : List (String × ServiceCfg))
    (httpEnv : String → HttpOutcome) (tcpEnv : String → TcpOutcome) : List CheckResult :=
  services.map fun nc => dispatch_one nc.1 nc.2 (httpEnv nc.1) (tcpEnv nc.1)

/-- One entry of `system.disk_checks` in the configuration. -/
structure DiskCfg where
  path : Option String
  warn_pct_free_below : Option ℚ
deriving DecidableEq

/-- Outcome of the one `shutil.disk_usage(path)` call of a disk check: total
and free bytes, or a raised OS error. -/
inductive DiskUsageOutcome where
  | ok (total free : Nat)
  | error (errClass errText : String)
deriving DecidableEq, Repr

/-- The free-percentage computation of the disk check: free / total * 100,
with 0 when total is 0 (guarding the division). -/
def disk_free_pct (total free : Nat) : ℚ :=
  if total = 0 then 0 else (free : ℚ) / (total : ℚ) * 100

/-- Renders a rational with one decimal digit, modelling the Python ".1f"
format used in the disk messages (no claim depends on the exact digits). -/
def fmtPct (q : ℚ) : String :=
  let n : Int := ⌊q * 10 + 1 / 2⌋
  toString (n / 10) ++ "." ++ toString (n % 10)

/-- The body of the `try` block of `run_disk_checks` (checks/disk.py) for one
configured path: UP when the free percentage is at or above the threshold,
WARN below it, WARN with the error text when reading the path raised. -/
def disk_check_one (path : String) (warnPctFreeBelow : ℚ)
    (usage : DiskUsageOutcome) : CheckResult :=
  match usage with
  | DiskUsageOutcome.ok total free =>
      let freePct := disk_free_pct total free
      if freePct < warnPctFreeBelow then
        { name := "disk:" ++ path, type := "disk", target := path,
          status := Status.warn, latency_ms := none,
          message := "Low disk: " ++ fmtPct freePct ++ "% free (< "
            ++ fmtPct warnPctFreeBelow ++ "%)" }
      else
        { name := "disk:" ++ path, type := "disk", target := path,
          status := Status.up, latency_ms := none,
          message := fmtPct freePct ++ "% free" }
  | DiskUsageOutcome.error errClass errText =>
      { name := "disk:" ++ path, type := "disk", target := path,
        status := Status.warn, latency_ms := none,
        message := errClass ++ ": " ++ errText }

/-- Embeds `run_disk_checks` (checks/disk.py): entries with a falsy `path`
are skipped by `continue`; every other entry contributes exactly one result,
computed from the filesystem oracle. -/
def run_disk_checks : List DiskCfg → (String → DiskUsageOutcome) → List CheckResult
  | [], _ => []
  | cfg :: rest, fs =>
      match cfg.path with
      | none => run_disk_checks rest fs
      | some p =>
          if p = "" then run_disk_checks rest fs
          else disk_check_one p (cfg.warn_pct_free_below.getD 10) (fs p)
            :: run_disk_checks rest fs

/-- Embeds the status-reduction loop of `summary` (api/routes_summary.py):
overall starts at UP; the first DOWN sets overall to DOWN and breaks; a WARN
elevates overall when overall is not DOWN. -/
def summaryOverall : List CheckResult → Status → Status
  | [], overall => overall
  | r :: rest, overall =>
      if r.status = Status.down then Status.down
      else if r.status = Status.warn ∧ overall ≠ Status.down then
        summaryOverall rest Status.warn
      else summaryOverall rest overall

/-- Modelled from the spec: the overall status as the precedence
DOWN > WARN > UP describes it — DOWN when any result is DOWN, otherwise WARN
when any result is WARN, otherwise UP. -/
def overallSpec (l : List CheckResult) : Status :=
  if l.any fun r => r.status == Status.down then Status.down
  else if l.any fun r => r.status == Status.warn then Status.warn
  else Status.up

/-- Models the batch composition of `_run_checks` (app/main.py): every probe
task has a completion time in milliseconds; `asyncio.gather` completes when
the slowest task does, and the surrounding `asyncio.wait_for` raises
`TimeoutError` — discarding every per-check result — when that exceeds the
total timeout. -/
def runChecksGather (tasks : List (Nat × CheckResult)) (totalTimeoutMs : Nat) :
    Except String (List CheckResult) :=
  if tasks.all fun tk => tk.1 ≤ totalTimeoutMs then Except.ok (tasks.map Prod.snd)
  else Except.error "TimeoutError"

/-- A result carrying only a status, for the reducer examples. -/
def mkRes (s : Status) : CheckResult :=
  { name := "", type := "", target := "", status := s, latency_ms := none, message := "" }

/-- Closed form of the reduction loop, for any starting accumulator. -/
theorem summaryOverall_closed (l : List CheckResult) (ov : Status) :
    summaryOverall l ov =
      match ov with
      | Status.down => Status.down
      | Status.warn =>
          if l.any fun r => r.status == Status.down then Status.down else Status.warn
      | Status.up => overallSpec l := by
  induction l generalizing ov with
  | nil => cases ov <;> simp [summaryOverall, overallSpec]
  | cons r rest ih =>
      cases hr : r.status <;> cases ov <;>
        simp [summaryOverall, overallSpec, hr, ih, List.any_cons]

/-- List.any is invariant under permutation. -/
theorem any_of_perm {l l' : List CheckResult} (f : CheckResult → Bool)
    (h : l.Perm l') : l.any f = l'.any f := by
  induction h with
  | nil => rfl
  | cons x _ ih => simp [List.any_cons, ih]
  | swap x y l => simp [List.any_cons, Bool.or_left_comm]
  | trans _ _ ih1 ih2 => exact ih1.trans ih2

/-- C1: the status reducer of `summary`, applied to the concatenation of the
service results and the disk results, computes the overall status by the
precedence DOWN > WARN > UP (DOWN when any result is DOWN, else WARN when any
is WARN, else UP); the empty input reduces to UP, and once overall is DOWN it
is never downgraded. -/
theorem summary_overall_precedence (service disk : List CheckResult) :
    summaryOverall (service ++ disk) Status.up = overallSpec (service ++ disk) ∧
    summaryOverall ([] : List CheckResult) Status.up = Status.up ∧
    summaryOverall (service ++ disk) Status.down = Status.down := by
  refine ⟨?_, rfl, ?_⟩
  · exact summaryOverall_closed (service ++ disk) Status.up
  · exact summaryOverall_closed (service ++ disk) Status.down

/-- C8: the final value of the status reducer is order-independent — reducing
any permutation of a result list gives the same overall status — and the
concrete aggregates hold: reduce [] = UP, reduce [UP, WARN] = WARN,
reduce [WARN, DOWN, UP] = DOWN. -/
theorem summary_overall_perm_invariant (l l' : List CheckResult) (h : l.Perm l') :
    summaryOverall l Status.up = summaryOverall l' Status.up ∧
    summaryOverall ([] : List CheckResult) Status.up = Status.up ∧
    summaryOverall [mkRes Status.up, mkRes Status.warn] Status.up = Status.warn ∧
    summaryOverall [mkRes Status.warn, mkRes Status.down, mkRes Status.up] Status.up
      = Status.down := by
  refine ⟨?_, rfl, by decide, by decide⟩
  rw [summaryOverall_closed, summaryOverall_closed]
  unfold overallSpec
  rw [any_of_perm _ h, any_of_perm _ h]

/-- Witness for C8 at the concrete permutation [UP, WARN] ~ [WARN, UP]. -/
theorem summary_overall_perm_invariant_witness :
    summaryOverall [mkRes Status.up, mkRes Status.warn] Status.up
        = summaryOverall [mkRes Status.warn, mkRes Status.up] Status.up ∧
    summaryOverall ([] : List CheckResult) Status.up = Status.up ∧
    summaryOverall [mkRes Status.up, mkRes Status.warn] Status.up = Status.warn ∧
    summaryOverall [mkRes Status.warn, mkRes Status.down, mkRes Status.up] Status.up
      = Status.down :=
  summary_overall_perm_invariant _ _
    (List.Perm.swap (mkRes Status.warn) (mkRes Status.up) [])

/-- Every branch of the HTTP probe echoes the definition name. -/
theorem check_http_name (n : String) (cfg : ServiceCfg) (io : HttpOutcome) :
    (check_http n cfg io).name = n := by
  unfold check_http
  cases cfg.url <;> cases io <;> dsimp only <;> (try split_ifs) <;> rfl

/-- Every branch of the TCP probe echoes the definition name. -/
theorem check_tcp_name (n : String) (host : Option String) (port : Int)
    (kind : String) (io : TcpOutcome) : (check_tcp n host port kind io).name = n := by
  unfold check_tcp
  cases host <;> cases io <;> dsimp only <;> (try split_ifs) <;> rfl

/-- Every branch of the dispatcher loop body echoes the definition name. -/
theorem dispatch_one_name (n : String) (cfg : ServiceCfg) (hio : HttpOutcome)
    (tio : TcpOutcome) : (dispatch_one n cfg hio tio).name = n := by
  unfold dispatch_one
  split
  · exact check_http_name n cfg hio
  · split
    · exact check_tcp_name n cfg.host (cfg.port.getD 3306) "mysql" tio
    · split
      · exact check_tcp_name n cfg.host (cfg.port.getD 6379) "redis" tio
      · rfl

/-- C3: the dispatcher returns one CheckResult per definition, in the input
order — the i-th result's name echoes the i-th definition's name — for every
input sequence and every combination of probe outcomes. -/
theorem run_all_checks_order (services : List (String × ServiceCfg))
    (httpEnv : String → HttpOutcome) (tcpEnv : String → TcpOutcome) :
    (run_all_checks services httpEnv tcpEnv).map CheckResult.name
      = services.map Prod.fst ∧
    (run_all_checks services httpEnv tcpEnv).length = services.length := by
  constructor
  · unfold run_all_checks
    induction services with
    | nil => rfl
    | cons s rest ih => simp [dispatch_one_name, ih]
  · unfold run_all_checks
    simp

/-- C4: for every HTTP check definition with a url present, `check_http`
returns exactly one CheckResult: UP with message "HTTP code" when the
response code is in [200,400), WARN with the same message shape otherwise (in
particular for every code at or above 400), and DOWN with message
"errClass: errText" and a non-null (hence non-negative) latency on any
transport-level failure. -/
theorem check_http_spec (n u : String) (cfg : ServiceCfg) (code : Int)
    (lat : Nat) (ec et : String) (hu : cfg.url = some u) (hne : u ≠ "") :
    check_http n cfg (HttpOutcome.response code lat) =
      { name := n, type := "http", target := u,
        status := if 200 ≤ code ∧ code < 400 then Status.up else Status.warn,
        latency_ms := some lat, message := "HTTP " ++ toString code } ∧
    check_http n cfg (HttpOutcome.failure ec et lat) =
      { name := n, type := "http", target := u, status := Status.down,
        latency_ms := some lat, message := ec ++ ": " ++ et } := by
  refine ⟨?_, ?_⟩ <;> unfold check_http <;> rw [hu] <;> dsimp only <;>
    rw [if_neg hne]
  split_ifs <;> rfl

/-- Witness for C4: a 503 response yields WARN and a transport failure yields
DOWN at a concrete reachable configuration. -/
theorem check_http_spec_witness :
    check_http "svc"
        { type := some "http", url := some "http://x", host := none, port := none,
          timeout_s := none } (HttpOutcome.response 503 7)
      = { name := "svc", type := "http", target := "http://x", status := Status.warn,
          latency_ms := some 7, message := "HTTP 503" } ∧
    check_http "svc"
        { type := some "http", url := some "http://x", host := none, port := none,
          timeout_s := none } (HttpOutcome.failure "URLError" "refused" 7)
      = { name := "svc", type := "http", target := "http://x", status := Status.down,
          latency_ms := some 7, message := "URLError: refused" } := by
  have h := check_http_spec "svc" "http://x"
      { type := some "http", url := some "http://x", host := none, port := none,
        timeout_s := none } 503 7 "URLError" "refused" rfl (by decide)
  refine ⟨?_, h.2⟩
  rw [h.1]
  decide

/-- C2 (defect exhibit): in the batch model of `_run_checks`, one probe whose
completion time (5000 ms) exceeds the total timeout (4000 ms) makes the whole
gather fail with a TimeoutError fault, returning no per-definition results at
all, instead of resolving the pending probe into a DOWN timeout result. -/
theorem total_timeout_aborts_batch :
    runChecksGather
        [(5000,
          { name := "workbench", type := "http", target := "http://omnibioai:8000/",
            status := Status.up, latency_ms := some 5000, message := "HTTP 200" })]
        4000 = Except.error "TimeoutError" := rfl

/-- C5 counterexample: a disk check definition missing `path` yields no
CheckResult at all — `run_disk_checks` skips it via `continue`, returning the
empty list instead of one DOWN/WARN result. -/
theorem missing_field_counterexample :
    run_disk_checks [{ path := none, warn_pct_free_below := some 5 }]
        (fun _ => DiskUsageOutcome.error "OSError" "unused") = [] := rfl

/-- C5 amended: an HTTP check missing `url` and a TCP check missing `host`
each yield exactly one CheckResult with status DOWN, null latency and an
explanatory message, independent of any I/O outcome; a disk check missing
`path` likewise performs no I/O but is skipped entirely, contributing no
CheckResult rather than a DOWN/WARN one. -/
theorem missing_field_spec (n kind : String) (port : Int) (cfg : ServiceCfg)
    (dcfg : DiskCfg) (hio : HttpOutcome) (tio : TcpOutcome) (host : Option String)
    (rest : List DiskCfg) (fs : String → DiskUsageOutcome)
    (hurl : cfg.url = none ∨ cfg.url = some "")
    (hhost : host = none ∨ host = some "")
    (hpath : dcfg.path = none) :
    check_http n cfg hio =
      { name := n, type := "http", target := "-", status := Status.down,
        latency_ms := none, message := "Missing \x27url\x27 in config" } ∧
    check_tcp n host port kind tio =
      { name := n, type := kind, target := pyOptStr host ++ ":" ++ toString port,
        status := Status.down, latency_ms := none, message := "Missing host" } ∧
    run_disk_checks (dcfg :: rest) fs = run_disk_checks rest fs := by
  refine ⟨?_, ?_, ?_⟩
  · unfold check_http
    rcases hurl with h | h <;> rw [h]
    all_goals simp
  · unfold check_tcp
    rcases hhost with h | h <;> rw [h]
    all_goals simp
  · obtain ⟨dp, dw⟩ := dcfg
    have h : dp = none := hpath
    subst h
    rfl

/-- Witness for C5 (amended) at concrete definitions with the fields absent. -/
theorem missing_field_spec_witness :
    check_http "a"
        { type := some "http", url := none, host := none, port := none,
          timeout_s := none } (HttpOutcome.response 200 1) =
      { name := "a", type := "http", target := "-", status := Status.down,
        latency_ms := none, message := "Missing \x27url\x27 in config" } ∧
    check_tcp "a" none 3306 "mysql" (TcpOutcome.connected 1) =
      { name := "a", type := "mysql", target := pyOptStr none ++ ":" ++ toString (3306 : Int),
        status := Status.down, latency_ms := none, message := "Missing host" } ∧
    run_disk_checks ({ path := none, warn_pct_free_below := none } :: [])
        (fun _ => DiskUsageOutcome.ok 100 50)
      = run_disk_checks [] (fun _ => DiskUsageOutcome.ok 100 50) :=
  missing_field_spec "a" "mysql" 3306
    { type := some "http", url := none, host := none, port := none, timeout_s := none }
    { path := none, warn_pct_free_below := none }
    (HttpOutcome.response 200 1) (TcpOutcome.connected 1) none []
    (fun _ => DiskUsageOutcome.ok 100 50) (Or.inl rfl) (Or.inl rfl) rfl

/-- C6: a disk check computes free_pct = free / total * 100 with free_pct = 0
when total = 0 (no division failure); its status is UP exactly when free_pct
is at least the threshold and WARN otherwise; an OS-level failure reading the
path yields WARN with the error text as message; a disk CheckResult never has
status DOWN. -/
theorem disk_check_spec (p ec et : String) (warn : ℚ) (total free : Nat)
    (u : DiskUsageOutcome) :
    ((disk_check_one p warn u).status = Status.up ∨
      (disk_check_one p warn u).status = Status.warn) ∧
    disk_free_pct 0 free = 0 ∧
    (disk_check_one p warn (DiskUsageOutcome.ok total free)).status =
      (if disk_free_pct total free < warn then Status.warn else Status.up) ∧
    disk_check_one p warn (DiskUsageOutcome.error ec et) =
      { name := "disk:" ++ p, type := "disk", target := p, status := Status.warn,
        latency_ms := none, message := ec ++ ": " ++ et } := by
  refine ⟨?_, by simp [disk_free_pct], ?_, rfl⟩
  · unfold disk_check_one
    cases u <;> dsimp only
    · split_ifs <;> simp
    · simp
  · unfold disk_check_one
    dsimp only
    split_ifs <;> rfl

/-- C7: a definition whose (lower-cased) kind the dispatcher does not
recognize produces — never throws, never omits — a CheckResult with status
WARN, null latency, type echoing the unrecognized kind (or "unknown" when it
is empty), and a message naming the unrecognized kind, for every combination
of probe outcomes. -/
theorem unknown_kind_spec (n : String) (cfg : ServiceCfg) (hio : HttpOutcome)
    (tio : TcpOutcome) (h1 : ctypeOf cfg ≠ "http") (h2 : ctypeOf cfg ≠ "mysql")
    (h3 : ctypeOf cfg ≠ "redis") :
    (dispatch_one n cfg hio tio).name = n ∧
    (dispatch_one n cfg hio tio).status = Status.warn ∧
    (dispatch_one n cfg hio tio).latency_ms = none ∧
    (dispatch_one n cfg hio tio).type =
      (if ctypeOf cfg = "" then "unknown" else ctypeOf cfg) ∧
    (dispatch_one n cfg hio tio).message =
      "Unknown check type: " ++ pyRepr (ctypeOf cfg) := by
  unfold dispatch_one
  rw [if_neg h1, if_neg h2, if_neg h3]
  exact ⟨rfl, rfl, rfl, rfl, rfl⟩

/-- Witness for C7 at the spec's unknown-kind scenario: name "x", type
"weird". -/
theorem unknown_kind_spec_witness :
    (dispatch_one "x"
        { type := some "weird", url := none, host := none, port := none,
          timeout_s := none } (HttpOutcome.response 200 1) (TcpOutcome.connected 1)).name
      = "x" ∧
    (dispatch_one "x"
        { type := some "weird", url := none, host := none, port := none,
          timeout_s := none } (HttpOutcome.response 200 1) (TcpOutcome.connected 1)).status
      = Status.warn ∧
    (dispatch_one "x"
        { type := some "weird", url := none, host := none, port := none,
          timeout_s := none } (HttpOutcome.response 200 1) (TcpOutcome.connected 1)).latency_ms
      = none ∧
    (dispatch_one "x"
        { type := some "weird", url := none, host := none, port := none,
          timeout_s := none } (HttpOutcome.response 200 1) (TcpOutcome.connected 1)).type
      = "weird" ∧
    (dispatch_one "x"
        { type := some "weird", url := none, host := none, port := none,
          timeout_s := none } (HttpOutcome.response 200 1) (TcpOutcome.connected 1)).message
      = "Unknown check type: \x27weird\x27" := by
  have h := unknown_kind_spec "x"
      { type := some "weird", url := none, host := none, port := none, timeout_s := none }
      (HttpOutcome.response 200 1) (TcpOutcome.connected 1)
      (by decide) (by decide) (by decide)
  refine ⟨h.1, h.2.1, h.2.2.1, ?_, ?_⟩
  · rw [h.2.2.2.1]; decide
  · rw [h.2.2.2.2]; decide

/-- C9 counterexample: a definition of kind "tcp" with a host present and a
successful connection outcome is routed to the unknown-kind branch — WARN
with an "Unknown check type" message — not to the TCP connect probe. -/
theorem tcp_kind_counterexample :
    dispatch_one "x"
        { type := some "tcp", url := none, host := some "h", port := some 9,
          timeout_s := none } (HttpOutcome.response 200 1) (TcpOutcome.connected 5)
      = { name := "x", type := "tcp", target := "h:9", status := Status.warn,
          latency_ms := none, message := "Unknown check type: \x27tcp\x27" } := by
  decide

/-- C9 amended: the dispatcher recognizes only "mysql" and "redis" as
TCP-family kinds, both backed by the shared `check_tcp` probe — which returns
UP with message "TCP connect ok" on a successful connection and DOWN on
failure — while the kind "tcp" itself is not recognized and is routed to the
unknown-kind branch with status WARN. -/
theorem tcp_family_dispatch (n h ec et k : String) (p : Int)
    (cfg cfg' cfg'' : ServiceCfg) (hio : HttpOutcome) (tio : TcpOutcome) (lat : Nat)
    (hm : ctypeOf cfg = "mysql") (hr : ctypeOf cfg' = "redis")
    (ht : ctypeOf cfg'' = "tcp") (hh : h ≠ "") :
    dispatch_one n cfg hio tio
      = check_tcp n cfg.host (cfg.port.getD 3306) "mysql" tio ∧
    dispatch_one n cfg' hio tio
      = check_tcp n cfg'.host (cfg'.port.getD 6379) "redis" tio ∧
    (dispatch_one n cfg'' hio tio).status = Status.warn ∧
    (dispatch_one n cfg'' hio tio).message = "Unknown check type: \x27tcp\x27" ∧
    check_tcp n (some h) p k (TcpOutcome.connected lat) =
      { name := n, type := k, target := h ++ ":" ++ toString p, status := Status.up,
        latency_ms := some lat, message := "TCP connect ok" } ∧
    check_tcp n (some h) p k (TcpOutcome.failed ec et lat) =
      { name := n, type := k, target := h ++ ":" ++ toString p, status := Status.down,
        latency_ms := some lat, message := ec ++ ": " ++ et } := by
  refine ⟨?_, ?_, ?_, ?_, ?_, ?_⟩
  · unfold dispatch_one
    rw [hm]
    simp
  · unfold dispatch_one
    rw [hr]
    simp
  · unfold dispatch_one
    rw [ht]
    simp
  · unfold dispatch_one
    rw [ht]
    simp [pyRepr]
  · unfold check_tcp
    dsimp only
    rw [if_neg hh]
    rfl
  · unfold check_tcp
    dsimp only
    rw [if_neg hh]
    rfl

/-- Witness for C9 (amended) at concrete mysql / redis / tcp definitions. -/
theorem tcp_family_dispatch_witness :
    dispatch_one "m"
        { type := some "mysql", url := none, host := some "db", port := some 3306,
          timeout_s := none } (HttpOutcome.response 200 1) (TcpOutcome.connected 5)
      = check_tcp "m" (some "db") 3306 "mysql" (TcpOutcome.connected 5) ∧
    dispatch_one "r"
        { type := some "redis", url := none, host := some "cache", port := none,
          timeout_s := none } (HttpOutcome.response 200 1) (TcpOutcome.connected 5)
      = check_tcp "r" (some "cache") 6379 "redis" (TcpOutcome.connected 5) ∧
    (dispatch_one "t"
        { type := some "tcp", url := none, host := some "db", port := some 9,
          timeout_s := none } (HttpOutcome.response 200 1) (TcpOutcome.connected 5)).status
      = Status.warn ∧
    (dispatch_one "t"
        { type := some "tcp", url := none, host := some "db", port := some 9,
          timeout_s := none } (HttpOutcome.response 200 1) (TcpOutcome.connected 5)).message
      = "Unknown check type: \x27tcp\x27" ∧
    check_tcp "m" (some "db") 3306 "mysql" (TcpOutcome.connected 5) =
      { name := "m", type := "mysql", target := "db" ++ ":" ++ toString (3306 : Int),
        status := Status.up, latency_ms := some 5, message := "TCP connect ok" } ∧
    check_tcp "m" (some "db") 3306 "mysql" (TcpOutcome.failed "OSError" "refused" 5) =
      { name := "m", type := "mysql", target := "db" ++ ":" ++ toString (3306 : Int),
        status := Status.down, latency_ms := some 5,
        message := "OSError" ++ ": " ++ "refused" } := by
  have hm := tcp_family_dispatch "m" "db" "OSError" "refused" "mysql" 3306
      { type := some "mysql", url := none, host := some "db", port := some 3306,
        timeout_s := none }
      { type := some "redis", url := none, host := some "cache", port := none,
        timeout_s := none }
      { type := some "tcp", url := none, host := some "db", port := some 9,
        timeout_s := none }
      (HttpOutcome.response 200 1) (TcpOutcome.connected 5) 5
      (by decide) (by decide) (by decide) (by decide)
  have hr := tcp_family_dispatch "r" "db" "OSError" "refused" "mysql" 3306
      { type := some "mysql", url := none, host := some "db", port := some 3306,
        timeout_s := none }
      { type := some "redis", url := none, host := some "cache", port := none,
        timeout_s := none }
      { type := some "tcp", url := none, host := some "db", port := some 9,
        timeout_s := none }
      (HttpOutcome.response 200 1) (TcpOutcome.connected 5) 5
      (by decide) (by decide) (by decide) (by decide)
  have ht := tcp_family_dispatch "t" "db" "OSError" "refused" "mysql" 3306
      { type := some "mysql", url := none, host := some "db", port := some 3306,
        timeout_s := none }
      { type := some "redis", url := none, host := some "cache", port := none,
        timeout_s := none }
      { type := some "tcp", url := none, host := some "db", port := some 9,
        timeout_s := none }
      (HttpOutcome.response 200 1) (TcpOutcome.connected 5) 5
      (by decide) (by decide) (by decide) (by decide)
  exact ⟨hm.1, hr.2.1, ht.2.2.1, ht.2.2.2.1, hm.2.2.2.2.1, hm.2.2.2.2.2⟩

/-- The dispatcher reads the type field only through its lower-casing: two
configurations that lower-case alike and agree elsewhere dispatch alike. -/
theorem dispatch_one_congr (n : String) (ty ty' url host : Option String)
    (port : Option Int) (ts ts' : Option ℚ) (hio : HttpOutcome) (tio : TcpOutcome)
    (h : pyLower (ty.getD "") = pyLower (ty'.getD "")) :
    dispatch_one n ⟨ty, url, host, port, ts⟩ hio tio
      = dispatch_one n ⟨ty', url, host, port, ts'⟩ hio tio := by
  unfold dispatch_one ctypeOf check_http
  dsimp only
  rw [h]

/-- C10: dispatch is case-insensitive in the type field — "HTTP" and "MySQL"
select the same probe invocation as "http" and "mysql" would; an absent or
empty type is routed to the unknown-kind branch, giving WARN with type
"unknown" and null latency; and a missing port defaults to 3306 for mysql and
to 6379 for redis. -/
theorem dispatch_case_insensitive (n : String) (cfg : ServiceCfg)
    (hio : HttpOutcome) (tio : TcpOutcome) :
    (cfg.type = some "HTTP" →
      dispatch_one n cfg hio tio
        = dispatch_one n { cfg with type := some "http" } hio tio) ∧
    (cfg.type = some "MySQL" →
      dispatch_one n cfg hio tio
        = dispatch_one n { cfg with type := some "mysql" } hio tio) ∧
    (cfg.type = none ∨ cfg.type = some "" →
      (dispatch_one n cfg hio tio).status = Status.warn ∧
      (dispatch_one n cfg hio tio).type = "unknown" ∧
      (dispatch_one n cfg hio tio).latency_ms = none) ∧
    (cfg.type = some "mysql" → cfg.port = none →
      dispatch_one n cfg hio tio = check_tcp n cfg.host 3306 "mysql" tio) ∧
    (cfg.type = some "redis" → cfg.port = none →
      dispatch_one n cfg hio tio = check_tcp n cfg.host 6379 "redis" tio) := by
  obtain ⟨ty, url, host, port, ts⟩ := cfg
  refine ⟨?_, ?_, ?_, ?_, ?_⟩
  · intro hty
    have h : ty = some "HTTP" := hty
    subst h
    exact dispatch_one_congr n (some "HTTP") (some "http") url host port ts ts hio tio
      (by decide)
  · intro hty
    have h : ty = some "MySQL" := hty
    subst h
    exact dispatch_one_congr n (some "MySQL") (some "mysql") url host port ts ts hio tio
      (by decide)
  · intro hty
    have h : ty = none ∨ ty = some "" := hty
    rcases h with h | h <;> subst h <;> exact ⟨rfl, rfl, rfl⟩
  · intro hty hport
    have h : ty = some "mysql" := hty
    have hp : port = none := hport
    subst h
    subst hp
    rfl
  · intro hty hport
    have h : ty = some "redis" := hty
    have hp : port = none := hport
    subst h
    subst hp
    rfl

/-- Witness for C10 at concrete configurations: an upper-cased "HTTP" type,
an absent type, and a mysql entry with no port. -/
theorem dispatch_case_insensitive_witness :
    dispatch_one "w"
        ⟨some "HTTP", some "http://x", none, none, none⟩
        (HttpOutcome.response 200 1) (TcpOutcome.connected 1)
      = dispatch_one "w"
          ⟨some "http", some "http://x", none, none, none⟩
          (HttpOutcome.response 200 1) (TcpOutcome.connected 1) ∧
    (dispatch_one "w"
        ⟨none, none, some "db", none, none⟩
        (HttpOutcome.response 200 1) (TcpOutcome.connected 1)).type = "unknown" ∧
    dispatch_one "w"
        ⟨some "mysql", none, some "db", none, none⟩
        (HttpOutcome.response 200 1) (TcpOutcome.connected 1)
      = check_tcp "w" (some "db") 3306 "mysql" (TcpOutcome.connected 1) := by
  refine ⟨?_, ?_, ?_⟩
  · exact (dispatch_case_insensitive "w" ⟨some "HTTP", some "http://x", none, none, none⟩
      (HttpOutcome.response 200 1) (TcpOutcome.connected 1)).1 rfl
  · exact ((dispatch_case_insensitive "w" ⟨none, none, some "db", none, none⟩
      (HttpOutcome.response 200 1) (TcpOutcome.connected 1)).2.2.1 (Or.inl rfl)).2.1
  · exact (dispatch_case_insensitive "w" ⟨some "mysql", none, some "db", none, none⟩
      (HttpOutcome.response 200 1) (TcpOutcome.connected 1)).2.2.2.1 rfl rfl

end ControlCenter
